import Mathlib

/-!
Formal model of the stream stitching and relay core of `llmstack`
(`llmstack/play/output_stream.py`): the recursive value-merge function
`stitch_model_objects` and the per-stream `OutputStream` client with its
`write`, `get_data`, `finalize` and `error` operations.

Python's dynamically-shaped runtime data is embedded as the closed inductive
type `Value` below; pydantic `BaseModel` instances are the `model` kind
(class identity plus a field mapping), Python `dict`s are the `dict` kind
(association lists with keys in insertion order), Python `list`s the `list`
kind, and Python's `None` is `Value.null`.
-/

set_option autoImplicit false

namespace OutputStreamModel

mutual

/-- A dynamically shaped runtime value, as handled by `stitch_model_objects`.
`model cls fields` plays the role of a pydantic `BaseModel` instance: `cls`
identifies the Python class (`type(obj)`), `fields` its field mapping in
declaration order.  `enum` is a `StrEnum` member.  `StrEnum` comes from
`llmstack.common.blocks.base.schema`, which is not among the modelled
sources; it is modelled from the spec: a tagged enumeration carrying a
string-valued tag, a kind of its own, distinct from plain text. -/
inductive Value : Type where
  | null : Value
  | int (n : Int) : Value
  | bool (b : Bool) : Value
  | str (s : String) : Value
  | enum (tag : String) : Value
  | list (items : VList) : Value
  | dict (entries : VDict) : Value
  | model (cls : String) (fields : VDict) : Value
  deriving DecidableEq

/-- A Python list of values. -/
inductive VList : Type where
  | nil : VList
  | cons (head : Value) (tail : VList) : VList
  deriving DecidableEq

/-- A Python mapping (or `BaseModel` field set): an association list of
string keys and values, in insertion order.  A Python `dict` never holds a
key twice; the lookup helpers below always take the first occurrence, so
every statement proved here also covers well-formed dictionaries. -/
inductive VDict : Type where
  | nil : VDict
  | cons (key : String) (val : Value) (tail : VDict) : VDict
  deriving DecidableEq

end

/-- `d.memKey k` holds when `k` is one of the keys of `d` (Python `k in d`). -/
def VDict.memKey : VDict → String → Bool
  | .nil, _ => false
  | .cons k _ t, key => k == key || t.memKey key

/-- `d.getD k` is `d.get(k, None)` in Python: the value at the first
occurrence of `k`, or `null` when the key is absent. -/
def VDict.getD : VDict → String → Value
  | .nil, _ => .null
  | .cons k v t, key => if k == key then v else t.getD key

/-- Concatenation of two entry lists. -/
def VDict.append : VDict → VDict → VDict
  | .nil, m2 => m2
  | .cons k v t, m2 => .cons k v (t.append m2)

/-- The entries of `m2` whose keys do not occur in `m1`, in order. -/
def rightOnly (m1 : VDict) : VDict → VDict
  | .nil => .nil
  | .cons k v t => if m1.memKey k then rightOnly m1 t else .cons k v (rightOnly m1 t)

/-- Python truthiness (`bool(x)`) for each `Value` kind: `None`, `0`,
`False`, the empty string, the empty list and the empty dict are falsy; a
`BaseModel` instance is always truthy; a `StrEnum` member is truthy exactly
when its tag is non-empty (it subclasses `str` in spirit). -/
def truthy : Value → Bool
  | .null => false
  | .int n => n != 0
  | .bool b => b
  | .str s => s != ""
  | .enum tag => tag != ""
  | .list items => items != .nil
  | .dict entries => entries != .nil
  | .model _ _ => true

/-- The final `else` branch of `stitch_model_objects`:
`return obj2 if obj2 else obj1`. -/
def elseBranch (a b : Value) : Value := if truthy b then b else a

mutual

/-- `stitch_model_objects(obj1, obj2)` from `llmstack/play/output_stream.py`:
the recursive merge of two partial values.  The branches appear in the
source's order: the two `None` checks, the same-class `BaseModel` branch,
the `dict` branch (`stitch_fields`, iterating the union of the key sets:
here realised as `obj1`'s keys followed by the keys only `obj2` has — key
order in a Python `dict` result is unobservable through lookups), the `list`
branch with its two emptiness early-returns, the `StrEnum` branch, the `str`
concatenation branch, and the truthiness fallback. -/
def stitch_model_objects : Value → Value → Value
  | .null, b => b
  | a, .null => a
  | .model c1 fs1, .model c2 fs2 =>
    if c1 = c2 then .model c1 (stitchLeft fs1 fs2)
    else elseBranch (.model c1 fs1) (.model c2 fs2)
  | .dict m1, .dict m2 => .dict ((stitchLeft m1 m2).append (rightOnly m1 m2))
  | .list l1, .list l2 =>
    if l1 = .nil then .list l2
    else if l2 = .nil then .list l1
    else .list (stitchItems l1 l2)
  | .enum t1, .enum t2 => if t1 = t2 then .enum t1 else .enum t2
  | .str s1, .str s2 => .str (s1 ++ s2)
  | a, b => elseBranch a b

/-- One merged entry per key of the left mapping, in order:
`stitch_model_objects(obj1_fields[k], obj2_fields.get(k, None))`.  The same
walk serves the `BaseModel` branch (there `obj1.model_fields` is walked and
`getattr(obj2, field)` is total because both objects have the same class, so
the `null` default of `getD` is never taken). -/
def stitchLeft : VDict → VDict → VDict
  | .nil, _ => .nil
  | .cons k v t, m2 => .cons k (stitch_model_objects v (m2.getD k)) (stitchLeft t m2)

/-- Elementwise merge of two lists padded to the longer length with `None`;
`stitch_model_objects(None, x) = x` and `stitch_model_objects(x, None) = x`
are inlined for the tail the shorter side is missing. -/
def stitchItems : VList → VList → VList
  | .nil, l2 => l2
  | l1, .nil => l1
  | .cons a t1, .cons b t2 => .cons (stitch_model_objects a b) (stitchItems t1 t2)

end

/-- `stitch_fields(obj1_fields, obj2_fields)` from the source: the merged
mapping over the union of both key sets. -/
def stitch_fields (m1 m2 : VDict) : VDict :=
  (stitchLeft m1 m2).append (rightOnly m1 m2)

mutual

/-- pydantic's `model_dump()` (an external collaborator, modelled at its
documented interface): recursively serialises a value to plain data, turning
every `BaseModel` instance, at any depth, into the mapping of its fields. -/
def dumpValue : Value → Value
  | .model _ fs => .dict (dumpDict fs)
  | .dict m => .dict (dumpDict m)
  | .list l => .list (dumpList l)
  | v => v

/-- `dumpValue` over the values of a mapping. -/
def dumpDict : VDict → VDict
  | .nil => .nil
  | .cons k v t => .cons k (dumpValue v) (dumpDict t)

/-- `dumpValue` over the items of a list. -/
def dumpList : VList → VList
  | .nil => .nil
  | .cons v t => .cons (dumpValue v) (dumpList t)

end

/-- `data.model_dump() if isinstance(data, BaseModel) else data`: the
serialisation the source applies to outbound payloads and to the first
accumulated delta. -/
def dumpIfModel (v : Value) : Value :=
  match v with
  | .model c fs => dumpValue (.model c fs)
  | v => v

/-- The kinds of relayed messages used by the client
(`llmstack.play.messages.MessageType`). -/
inductive MessageType : Type where
  | CONTENT_STREAM_CHUNK : MessageType
  | CONTENT_STREAM_END : MessageType
  | CONTENT : MessageType
  | ERRORS : MessageType
  deriving DecidableEq

/-- The payload of a relayed message: `ContentStreamChunkData(chunk=...)`,
`ContentData(content=...)` or `ErrorsData(errors=[...])`, each error carrying
its message text. -/
inductive MessageData : Type where
  | chunkData (chunk : Value) : MessageData
  | contentData (content : Value) : MessageData
  | errorsData (errors : List String) : MessageData
  deriving DecidableEq

/-- Modelled from the spec: the Message envelope record of
`llmstack.play.messages`, which is not among the modelled sources —
`{id, kind, sender, receiver, optional opaque payload}`.  The `id` field is
optional at construction: `none` records that the caller did not pass the
stream session's id (the envelope is then left with whatever default the
external definition supplies, which is in any case not the client's
construction-time identifier). -/
structure Message : Type where
  id : Option String
  type : MessageType
  sender : Option String
  receiver : String
  data : Option MessageData
  deriving DecidableEq

/-- An exception escaping to the caller of a client operation:
`attributeError` for the `None.relay(...)` call on an absent coordinator
handle, `validationError` for a pydantic construction failure in `finalize`
(a required field of the target shape is missing), `typeError` for `**`
applied to a non-mapping accumulator. -/
inductive PyError : Type where
  | attributeError : PyError
  | validationError : PyError
  | typeError : PyError
  deriving DecidableEq

/-- A target shape (`output_cls`): a pydantic model class, identified by
name, with its list of required fields. -/
structure TargetShape : Type where
  name : String
  required : List String
  deriving DecidableEq

/-- Modelled from the spec: the target-shape constructor
(`self._output_cls(**mapping)`, pydantic being an external collaborator
specified at its interface) — construction succeeds when every required
field is present in the mapping and fails with a construction error
otherwise. -/
def buildShape (cls : TargetShape) (m : VDict) : Except PyError Value :=
  if cls.required.all (fun f => m.memKey f) then
    .ok (.model cls.name (cls.required.foldr (fun f acc => .cons f (m.getD f) acc) .nil))
  else
    .error .validationError

/-- The session state of one `OutputStream` client: the construction-fixed
message identifier (`str(uuid.uuid4())` — the fresh identifier is a
parameter of `init`), the accumulator `_data` (Python `None` = `Value.null`
when absent), the optional target shape, the stream identifier, the
coordinator address, and whether a coordinator proxy has been resolved and
cached (`_coordinator_proxy is not None`). -/
structure OutputStream : Type where
  _message_id : String
  _data : Value
  _output_cls : Option TargetShape
  _stream_id : Option String
  _coordinator_urn : Option String
  _coordinator_proxy : Bool
  deriving DecidableEq

/-- `OutputStream.__init__`: a fresh client with an absent accumulator and
no cached coordinator proxy. -/
def OutputStream.init (message_id : String) (stream_id : Option String)
    (coordinator_urn : Option String) (output_cls : Option TargetShape) : OutputStream :=
  ⟨message_id, .null, output_cls, stream_id, coordinator_urn, false⟩

/-- The `_coordinator` property: return the cached proxy if present,
otherwise try to resolve the coordinator through the registry — a lookup
failure is caught and logged, leaving the proxy absent.  `reg` says whether
`ActorRegistry.get_by_urn(urn).proxy()` currently succeeds for this client's
address.  The returned flag says whether a usable handle came back. -/
def OutputStream.coordinatorLookup (s : OutputStream) (reg : Bool) : OutputStream × Bool :=
  if s._coordinator_proxy then (s, true)
  else if reg then ({ s with _coordinator_proxy := true }, true)
  else (s, false)

/-- The outcome of one client operation: the state the client is left in,
the envelopes relayed to the coordinator in order, the exception escaping to
the caller (if any), and the returned value (`none` when an exception
escaped; Python `None` = `some .null` for operations without a result). -/
structure RunResult : Type where
  state : OutputStream
  sent : List Message
  err : Option PyError
  ret : Option Value
  deriving DecidableEq

/-- The accumulation step of `write`: `if self._data is None: self._data =
data.model_dump() if isinstance(data, BaseModel) else data` — the first
delta is stored serialised — `else: self._data =
stitch_model_objects(self._data, data)` — later deltas are merged raw. -/
def accumulate (old delta : Value) : Value :=
  match old with
  | .null => dumpIfModel delta
  | d => stitch_model_objects d delta

/-- `OutputStream.write(data)`: relay one `CONTENT_STREAM_CHUNK` envelope
whose chunk is the delta (serialised by `model_dump` when it is a
`BaseModel`), then accumulate — the first delta is stored serialised, later
ones are merged raw via `stitch_model_objects`.  When the coordinator handle
is absent the `None.relay(...)` attribute access raises before anything else
happens, so nothing is relayed and the accumulator is untouched.  (The
closing `asyncio.sleep(0.0001)` is a scheduling yield with no effect on the
modelled state.) -/
def OutputStream.write (s : OutputStream) (reg : Bool) (data : Value) : RunResult :=
  let (s1, ok) := s.coordinatorLookup reg
  if ok then
    let msg : Message :=
      ⟨some s1._message_id, .CONTENT_STREAM_CHUNK, s1._stream_id, "coordinator",
        some (.chunkData (dumpIfModel data))⟩
    let s2 := { s1 with _data := accumulate s1._data data }
    ⟨s2, [msg], none, some .null⟩
  else
    ⟨s1, [], some .attributeError, none⟩

/-- `OutputStream.get_data()`: the current accumulator. -/
def OutputStream.get_data (s : OutputStream) : Value := s._data

/-- Step (1) of `finalize`: `self._data if not self._output_cls or
isinstance(self._data, BaseModel) else self._output_cls(**self._data)`. -/
def OutputStream.constructOutput (s : OutputStream) : Except PyError Value :=
  match s._output_cls with
  | none => .ok s._data
  | some cls =>
    match s._data with
    | .model c fs => .ok (.model c fs)
    | .dict m => buildShape cls m
    | _ => .error .typeError

/-- `OutputStream.finalize()`: build the output (a construction failure
escapes at once, before the accumulator is touched and before any relay),
clear the accumulator, relay `CONTENT_STREAM_END` and then `CONTENT` whose
content is the serialised output, and return the output.  When the
coordinator handle is absent the first relay raises, with the accumulator
already cleared. -/
def OutputStream.finalize (s : OutputStream) (reg : Bool) : RunResult :=
  match s.constructOutput with
  | .error e => ⟨s, [], some e, none⟩
  | .ok output =>
    let s1 := { s with _data := .null }
    let (s2, ok) := s1.coordinatorLookup reg
    if ok then
      let endMsg : Message :=
        ⟨some s2._message_id, .CONTENT_STREAM_END, s2._stream_id, "coordinator", none⟩
      let contentMsg : Message :=
        ⟨some s2._message_id, .CONTENT, s2._stream_id, "coordinator",
          some (.contentData (dumpIfModel output))⟩
      ⟨s2, [endMsg, contentMsg], none, some output⟩
    else
      ⟨s2, [], some .attributeError, none⟩

/-- `OutputStream.error(error)`: relay one `ERRORS` envelope wrapping the
error's text.  The source builds this `Message` without passing
`id=self._message_id`, so the envelope does not carry the session id. -/
def OutputStream.error (s : OutputStream) (reg : Bool) (e : String) : RunResult :=
  let (s1, ok) := s.coordinatorLookup reg
  if ok then
    ⟨s1, [⟨none, .ERRORS, s1._stream_id, "coordinator", some (.errorsData [e])⟩],
      none, some .null⟩
  else
    ⟨s1, [], some .attributeError, none⟩

/-! ## Observational accessors used by the statements below -/

/-- Whether a value is a mapping. -/
def isDict : Value → Bool
  | .dict _ => true
  | _ => false

/-- Key membership read through a `Value` (false on non-mappings). -/
def dictMemKey : Value → String → Bool
  | .dict m, k => m.memKey k
  | _, _ => false

/-- Key lookup read through a `Value` (`null` on non-mappings). -/
def dictGetD : Value → String → Value
  | .dict m, k => m.getD k
  | _, _ => .null

/-- Whether a value is a `BaseModel` instance (`isinstance(x, BaseModel)`). -/
def isModelValue : Value → Bool
  | .model _ _ => true
  | _ => false

/-- The shapes the first six merge rules cover: a `None` on either side, two
same-class `BaseModel`s, two mappings, two lists, two enum members, or two
texts.  Everything else falls to the final truthiness branch. -/
def coveredByEarlierRules : Value → Value → Bool
  | .null, _ => true
  | _, .null => true
  | .model c1 _, .model c2 _ => c1 == c2
  | .dict _, .dict _ => true
  | .list _, .list _ => true
  | .enum _, .enum _ => true
  | .str _, .str _ => true
  | _, _ => false

/-! ## Facts about the mapping helpers -/

theorem memKey_append : ∀ (a b : VDict) (k : String),
    (a.append b).memKey k = (a.memKey k || b.memKey k)
  | .nil, b, k => by simp [VDict.append, VDict.memKey]
  | .cons k' v t, b, k => by
    simp [VDict.append, VDict.memKey, memKey_append t b k, Bool.or_assoc]

theorem memKey_stitchLeft : ∀ (m1 m2 : VDict) (k : String),
    (stitchLeft m1 m2).memKey k = m1.memKey k
  | .nil, _, _ => by simp [stitchLeft]
  | .cons k' v t, m2, k => by
    simp [stitchLeft, VDict.memKey, memKey_stitchLeft t m2 k]

theorem memKey_rightOnly : ∀ (m1 m2 : VDict) (k : String),
    (rightOnly m1 m2).memKey k = (m2.memKey k && !(m1.memKey k))
  | m1, .nil, k => by simp [rightOnly, VDict.memKey]
  | m1, .cons k' v t, k => by
    by_cases h : m1.memKey k' = true
    · rw [rightOnly, if_pos h, memKey_rightOnly m1 t k, VDict.memKey]
      by_cases hk : (k' == k) = true
      · have hm : m1.memKey k = true := by
          rw [← eq_of_beq hk]; exact h
        simp [hk, hm]
      · simp [hk]
    · rw [rightOnly, if_neg h, VDict.memKey, VDict.memKey,
        memKey_rightOnly m1 t k]
      by_cases hk : (k' == k) = true
      · have hm : m1.memKey k = false := by
          rw [← eq_of_beq hk]; simp [h]
        simp [hk, hm]
      · simp [hk]

theorem getD_eq_null_of_not_mem : ∀ (m : VDict) (k : String),
    m.memKey k = false → m.getD k = .null
  | .nil, _, _ => rfl
  | .cons k' v t, k, h => by
    rw [VDict.memKey, Bool.or_eq_false_iff] at h
    rw [VDict.getD, if_neg (by simp [h.1]), getD_eq_null_of_not_mem t k h.2]

theorem getD_append : ∀ (a b : VDict) (k : String),
    (a.append b).getD k = if a.memKey k then a.getD k else b.getD k
  | .nil, b, k => by simp [VDict.append, VDict.memKey, VDict.getD]
  | .cons k' v t, b, k => by
    by_cases hk : (k' == k) = true
    · simp [VDict.append, VDict.getD, VDict.memKey, hk]
    · simp [VDict.append, VDict.getD, VDict.memKey, hk, getD_append t b k]

theorem getD_stitchLeft : ∀ (m1 m2 : VDict) (k : String),
    m1.memKey k = true →
    (stitchLeft m1 m2).getD k = stitch_model_objects (m1.getD k) (m2.getD k)
  | .nil, _, k, h => by simp [VDict.memKey] at h
  | .cons k' v t, m2, k, h => by
    by_cases hk : (k' == k) = true
    · have hkk : k' = k := eq_of_beq hk
      simp [stitchLeft, VDict.getD, hk, hkk]
    · rw [VDict.memKey, Bool.or_eq_true] at h
      rcases h with h | h
      · exact absurd h hk
      · simp [stitchLeft, VDict.getD, hk, getD_stitchLeft t m2 k h]

theorem getD_rightOnly : ∀ (m1 m2 : VDict) (k : String),
    m1.memKey k = false → (rightOnly m1 m2).getD k = m2.getD k
  | _, .nil, _, _ => rfl
  | m1, .cons k' v t, k, h => by
    by_cases h' : m1.memKey k' = true
    · have hk : (k' == k) = false := by
        by_contra hc
        rw [Bool.not_eq_false] at hc
        rw [← eq_of_beq hc] at h
        rw [h] at h'
        exact Bool.false_ne_true h'
      rw [rightOnly, if_pos h', getD_rightOnly m1 t k h, VDict.getD,
        if_neg (by simp [hk])]
    · rw [rightOnly, if_neg h', VDict.getD, VDict.getD]
      by_cases hk : (k' == k) = true
      · rw [if_pos hk, if_pos hk]
      · rw [if_neg hk, if_neg hk, getD_rightOnly m1 t k h]

/-! ## Claim theorems: the Value Merge Engine -/

/-- C6: for every value `x`, `merge(null, x) = x` and `merge(x, null) = x` —
`null` is a two-sided identity of `stitch_model_objects`. -/
theorem stitch_null_identity (x : Value) :
    stitch_model_objects .null x = x ∧ stitch_model_objects x .null = x := by
  refine ⟨?_, ?_⟩ <;> cases x <;> simp [stitch_model_objects]

/-- C7: merging two mappings yields a mapping whose key set is the union of
the two key sets and whose value at each key `k` is
`merge(a.get(k, null), b.get(k, null))`; a key present on one side only
passes through unchanged (by the `null`-identity of the merge). -/
theorem stitch_dict_union (m1 m2 : VDict) (k : String) :
    isDict (stitch_model_objects (.dict m1) (.dict m2)) = true
    ∧ dictMemKey (stitch_model_objects (.dict m1) (.dict m2)) k
        = (m1.memKey k || m2.memKey k)
    ∧ dictGetD (stitch_model_objects (.dict m1) (.dict m2)) k
        = stitch_model_objects (m1.getD k) (m2.getD k) := by
  have hd : stitch_model_objects (.dict m1) (.dict m2)
      = .dict ((stitchLeft m1 m2).append (rightOnly m1 m2)) := by
    simp [stitch_model_objects]
  refine ⟨by rw [hd]; rfl, ?_, ?_⟩
  · rw [hd]
    show ((stitchLeft m1 m2).append (rightOnly m1 m2)).memKey k
        = (m1.memKey k || m2.memKey k)
    rw [memKey_append, memKey_stitchLeft, memKey_rightOnly]
    cases h1 : m1.memKey k <;> cases h2 : m2.memKey k <;> rfl
  · rw [hd]
    show ((stitchLeft m1 m2).append (rightOnly m1 m2)).getD k
        = stitch_model_objects (m1.getD k) (m2.getD k)
    rw [getD_append, memKey_stitchLeft]
    by_cases h1 : m1.memKey k = true
    · rw [if_pos h1, getD_stitchLeft m1 m2 k h1]
    · rw [Bool.not_eq_true] at h1
      rw [if_neg (by simp [h1]), getD_rightOnly m1 m2 k h1,
        getD_eq_null_of_not_mem m1 k h1]
      exact (stitch_null_identity (m2.getD k)).1.symm

/-- C8: merging two texts concatenates them, left operand first. -/
theorem stitch_str_concat (s1 s2 : String) :
    stitch_model_objects (.str s1) (.str s2) = .str (s1 ++ s2) := rfl

/-- C9: for two values of shapes not covered by the earlier merge rules
(scalars, or mismatched shapes such as an enum member on one side and plain
text on the other), the merge returns `b` when `b` is truthy and `a`
otherwise — a later zero/empty/false value never overwrites an earlier
meaningful value. -/
theorem stitch_fallback_truthy (a b : Value)
    (h : coveredByEarlierRules a b = false) :
    stitch_model_objects a b = if truthy b then b else a := by
  cases a <;> cases b <;>
    simp_all [coveredByEarlierRules, stitch_model_objects, elseBranch]

/-- Witness for C9 at concrete inputs: `merge(5, 0) = 5` and
`merge(TAG_A, "foo") = "foo"` both fall under the fallback rule. -/
theorem stitch_fallback_truthy_witness :
    (coveredByEarlierRules (.int 5) (.int 0) = false
      ∧ stitch_model_objects (.int 5) (.int 0)
          = if truthy (.int 0) then .int 0 else .int 5)
    ∧ (coveredByEarlierRules (.enum "TAG_A") (.str "foo") = false
      ∧ stitch_model_objects (.enum "TAG_A") (.str "foo")
          = if truthy (.str "foo") then .str "foo" else .enum "TAG_A") :=
  ⟨⟨by decide, stitch_fallback_truthy (.int 5) (.int 0) (by decide)⟩,
   ⟨by decide, stitch_fallback_truthy (.enum "TAG_A") (.str "foo") (by decide)⟩⟩

/-! ## Sample clients for witnesses and counterexamples -/

/-- A client with a live cached coordinator handle and an empty accumulator. -/
def sampleClient : OutputStream :=
  { _message_id := "mid-1", _data := .null, _output_cls := none,
    _stream_id := some "stream-1", _coordinator_urn := some "urn:coordinator",
    _coordinator_proxy := true }

/-- A `BaseModel` instance `ChunkModel(text="Hello")`. -/
def helloModel : Value := .model "ChunkModel" (.cons "text" (.str "Hello") .nil)

/-- A client whose accumulator already holds a `BaseModel` instance. -/
def modelClient : OutputStream :=
  { _message_id := "mid-2", _data := helloModel, _output_cls := none,
    _stream_id := some "stream-2", _coordinator_urn := some "urn:coordinator",
    _coordinator_proxy := true }

/-- A client whose accumulator holds the mapping `{"text": "Hello World"}`. -/
def dictClient : OutputStream :=
  { _message_id := "mid-3", _data := .dict (.cons "text" (.str "Hello World") .nil),
    _output_cls := none, _stream_id := some "stream-3",
    _coordinator_urn := some "urn:coordinator", _coordinator_proxy := true }

/-- A client whose coordinator address does not resolve and whose accumulator
holds the text `"a"`. -/
def noCoordClient : OutputStream :=
  { _message_id := "mid-4", _data := .str "a", _output_cls := none,
    _stream_id := some "stream-4", _coordinator_urn := none,
    _coordinator_proxy := false }

/-- A target shape requiring the field `"x"`. -/
def shapeNeedsX : TargetShape := { name := "Target", required := ["x"] }

/-- A client with target shape `shapeNeedsX` whose accumulator `{"y": 1}`
lacks the required field `"x"`. -/
def missingFieldClient : OutputStream :=
  { _message_id := "mid-5", _data := .dict (.cons "y" (.int 1) .nil),
    _output_cls := some shapeNeedsX, _stream_id := some "stream-5",
    _coordinator_urn := some "urn:coordinator", _coordinator_proxy := true }

/-! ## Claim theorems: the Stream Client -/

/-- C1 (amended): when the coordinator handle is available (cached or
resolvable), `write(delta)` relays exactly one `CONTENT_STREAM_CHUNK`
envelope whose payload is the delta serialised by `model_dump` when it is a
`BaseModel` instance and the delta exactly as given otherwise — never the
accumulated value — and then updates the accumulator: if it was absent it
becomes the serialised delta, otherwise it becomes
`merge(accumulator, delta)` with the raw delta; no exception escapes. -/
theorem write_relays_one_chunk (s : OutputStream) (reg : Bool) (d : Value)
    (h : s._coordinator_proxy = true ∨ reg = true) :
    (s.write reg d).sent
      = [⟨some s._message_id, .CONTENT_STREAM_CHUNK, s._stream_id, "coordinator",
          some (.chunkData (dumpIfModel d))⟩]
    ∧ (s.write reg d).state._data
      = (if s._data = Value.null then dumpIfModel d
         else stitch_model_objects s._data d)
    ∧ (s.write reg d).err = none := by
  by_cases hp : s._coordinator_proxy = true
  · cases hd : s._data <;>
      simp [OutputStream.write, OutputStream.coordinatorLookup, accumulate, hp, hd]
  · have hr : reg = true := h.resolve_left hp
    cases hd : s._data <;>
      simp [OutputStream.write, OutputStream.coordinatorLookup, accumulate, hp, hr, hd]

/-- Witness for C1's theorem at a concrete input. -/
theorem write_relays_one_chunk_witness :
    (sampleClient._coordinator_proxy = true ∨ (true : Bool) = true)
    ∧ ((sampleClient.write true (Value.str "Hello")).sent
        = [⟨some sampleClient._message_id, .CONTENT_STREAM_CHUNK,
            sampleClient._stream_id, "coordinator",
            some (.chunkData (dumpIfModel (Value.str "Hello")))⟩]
      ∧ (sampleClient.write true (Value.str "Hello")).state._data
        = (if sampleClient._data = Value.null then dumpIfModel (Value.str "Hello")
           else stitch_model_objects sampleClient._data (Value.str "Hello"))
      ∧ (sampleClient.write true (Value.str "Hello")).err = none) :=
  ⟨Or.inl rfl, write_relays_one_chunk sampleClient true (Value.str "Hello") (Or.inl rfl)⟩

/-- Counterexample to C1 as stated: for a `BaseModel` delta the relayed
chunk payload is the serialised mapping, not the delta exactly as given, and
the absent accumulator becomes the serialised mapping, not the delta. -/
theorem write_model_delta_payload_serialized :
    (sampleClient.write true helloModel).sent.map Message.data
      = [some (.chunkData (.dict (.cons "text" (.str "Hello") .nil)))]
    ∧ (sampleClient.write true helloModel).sent.map Message.data
      ≠ [some (.chunkData helloModel)]
    ∧ (sampleClient.write true helloModel).state._data ≠ helloModel := by
  decide

/-- C2 (amended): for a client whose accumulator needs no target-shape
conversion and whose coordinator handle is available, `finalize()` computes
the finalized output (the accumulator itself), clears the accumulator to
absent, relays a `CONTENT_STREAM_END` envelope with no payload and then a
`CONTENT` envelope whose payload is the finalized output serialised by
`model_dump` when it is a `BaseModel` instance (and the output exactly as
given otherwise), and returns the finalized output. -/
theorem finalize_emits_end_then_content (s : OutputStream) (reg : Bool)
    (hres : s._coordinator_proxy = true ∨ reg = true)
    (hconv : s._output_cls = none ∨ isModelValue s._data = true) :
    (s.finalize reg).ret = some s._data
    ∧ (s.finalize reg).state._data = Value.null
    ∧ (s.finalize reg).sent
      = [⟨some s._message_id, .CONTENT_STREAM_END, s._stream_id, "coordinator", none⟩,
         ⟨some s._message_id, .CONTENT, s._stream_id, "coordinator",
          some (.contentData (dumpIfModel s._data))⟩]
    ∧ (s.finalize reg).err = none := by
  have hco : s.constructOutput = Except.ok s._data := by
    rcases hconv with h | h
    · simp [OutputStream.constructOutput, h]
    · cases hcls : s._output_cls with
      | none => simp [OutputStream.constructOutput, hcls]
      | some cls =>
        cases hd : s._data <;>
          (rw [hd] at h; simp [isModelValue] at h;
            try simp [OutputStream.constructOutput, hcls, hd])
  by_cases hp : s._coordinator_proxy = true
  · simp [OutputStream.finalize, hco, OutputStream.coordinatorLookup, hp]
  · have hr : reg = true := hres.resolve_left hp
    simp [OutputStream.finalize, hco, OutputStream.coordinatorLookup, hp, hr]

/-- Witness for C2's theorem at a concrete input. -/
theorem finalize_emits_end_then_content_witness :
    ((dictClient._coordinator_proxy = true ∨ (true : Bool) = true)
      ∧ (dictClient._output_cls = none ∨ isModelValue dictClient._data = true))
    ∧ ((dictClient.finalize true).ret = some dictClient._data
      ∧ (dictClient.finalize true).state._data = Value.null
      ∧ (dictClient.finalize true).sent
        = [⟨some dictClient._message_id, .CONTENT_STREAM_END, dictClient._stream_id,
            "coordinator", none⟩,
           ⟨some dictClient._message_id, .CONTENT, dictClient._stream_id, "coordinator",
            some (.contentData (dumpIfModel dictClient._data))⟩]
      ∧ (dictClient.finalize true).err = none) :=
  ⟨⟨Or.inl rfl, Or.inl rfl⟩,
    finalize_emits_end_then_content dictClient true (Or.inl rfl) (Or.inl rfl)⟩

/-- Counterexample to C2 as stated: when the accumulator is already a
`BaseModel` instance (so it needs no target-shape conversion), the `CONTENT`
payload is the serialised mapping, not the finalized output that is
returned. -/
theorem finalize_model_content_serialized :
    (modelClient.finalize true).ret = some helloModel
    ∧ (modelClient.finalize true).sent.map Message.data
      ≠ [none, some (.contentData helloModel)]
    ∧ (modelClient.finalize true).sent.map Message.data
      = [none, some (.contentData (.dict (.cons "text" (.str "Hello") .nil)))] := by
  decide

/-- C3: with a target shape configured and a mapping accumulator lacking a
field the shape requires, `finalize()` fails with a construction error
propagated synchronously to the caller (no value is returned) and relays no
envelope at all. -/
theorem finalize_missing_field_fails_no_envelopes (s : OutputStream) (reg : Bool)
    (cls : TargetShape) (m : VDict) (f : String)
    (hcls : s._output_cls = some cls) (hd : s._data = Value.dict m)
    (hf : f ∈ cls.required) (hmiss : m.memKey f = false) :
    (s.finalize reg).err = some PyError.validationError
    ∧ (s.finalize reg).sent = []
    ∧ (s.finalize reg).ret = none := by
  have hall : cls.required.all (fun x => m.memKey x) = false := by
    by_contra hc
    rw [Bool.not_eq_false] at hc
    have := List.all_eq_true.mp hc f hf
    rw [hmiss] at this
    exact Bool.false_ne_true this
  simp [OutputStream.finalize, OutputStream.constructOutput, buildShape,
    hcls, hd, hall]

/-- Witness for C3's theorem at a concrete input. -/
theorem finalize_missing_field_fails_witness :
    (missingFieldClient._output_cls = some shapeNeedsX
      ∧ missingFieldClient._data = Value.dict (.cons "y" (.int 1) .nil)
      ∧ "x" ∈ shapeNeedsX.required
      ∧ (VDict.cons "y" (.int 1) .nil).memKey "x" = false)
    ∧ ((missingFieldClient.finalize true).err = some PyError.validationError
      ∧ (missingFieldClient.finalize true).sent = []
      ∧ (missingFieldClient.finalize true).ret = none) :=
  ⟨⟨rfl, rfl, by decide, by decide⟩,
    finalize_missing_field_fails_no_envelopes missingFieldClient true shapeNeedsX
      (.cons "y" (.int 1) .nil) "x" rfl rfl (by decide) (by decide)⟩

/-- C4 (amended): every envelope emitted through `write` and `finalize`
carries the message identifier fixed at the client's construction, and no
operation (`write`, `finalize`, `error`) ever changes that identifier; the
`ERRORS` envelope emitted by `error()` however is built without the client's
identifier, so it does not carry the session id. -/
theorem envelope_id_session_stable (s : OutputStream) (reg : Bool) (d : Value)
    (e : String) :
    ((s.write reg d).sent.all (fun msg => msg.id == some s._message_id)) = true
    ∧ ((s.finalize reg).sent.all (fun msg => msg.id == some s._message_id)) = true
    ∧ ((s.error reg e).sent.all (fun msg => msg.id == none)) = true
    ∧ (s.write reg d).state._message_id = s._message_id
    ∧ (s.finalize reg).state._message_id = s._message_id
    ∧ (s.error reg e).state._message_id = s._message_id := by
  refine ⟨?_, ?_, ?_, ?_, ?_, ?_⟩
  · by_cases hp : s._coordinator_proxy = true <;> cases hr : reg <;>
      simp [OutputStream.write, OutputStream.coordinatorLookup, hp]
  · cases hco : s.constructOutput <;>
      by_cases hp : s._coordinator_proxy = true <;> cases hr : reg <;>
      simp [OutputStream.finalize, OutputStream.coordinatorLookup, hp, hco]
  · by_cases hp : s._coordinator_proxy = true <;> cases hr : reg <;>
      simp [OutputStream.error, OutputStream.coordinatorLookup, hp]
  · by_cases hp : s._coordinator_proxy = true <;> cases hr : reg <;>
      simp [OutputStream.write, OutputStream.coordinatorLookup, hp]
  · cases hco : s.constructOutput <;>
      by_cases hp : s._coordinator_proxy = true <;> cases hr : reg <;>
      simp [OutputStream.finalize, OutputStream.coordinatorLookup, hp, hco]
  · by_cases hp : s._coordinator_proxy = true <;> cases hr : reg <;>
      simp [OutputStream.error, OutputStream.coordinatorLookup, hp]

/-- Counterexample to C4 as stated: the `ERRORS` envelope relayed by
`error()` does not carry the client's construction-fixed message id. -/
theorem error_envelope_missing_session_id :
    ((sampleClient.error true "boom").sent.all
      (fun msg => msg.id == some sampleClient._message_id)) = false := by
  decide

/-- C5 (amended): when coordinator-address resolution has failed and the
handle is absent, the resolution failure itself is swallowed and logged by
the resolver, but `write(delta)` then raises an attribute error to its
caller from the relay call on the absent handle: nothing is relayed, the
caller's accumulation does not proceed, and the client is left unchanged. -/
theorem write_absent_handle_raises (s : OutputStream) (d : Value)
    (h : s._coordinator_proxy = false) :
    s.write false d = ⟨s, [], some PyError.attributeError, none⟩ := by
  simp [OutputStream.write, OutputStream.coordinatorLookup, h]

/-- Witness for C5's theorem at a concrete input. -/
theorem write_absent_handle_raises_witness :
    noCoordClient._coordinator_proxy = false
    ∧ noCoordClient.write false (Value.str "b")
      = ⟨noCoordClient, [], some PyError.attributeError, none⟩ :=
  ⟨rfl, write_absent_handle_raises noCoordClient (Value.str "b") rfl⟩

/-- Counterexample to C5 as stated: with resolution failed and the handle
absent, `write` raises an attribute error to its caller, relays nothing, and
the accumulation does not proceed (the accumulator still holds `"a"`, not
the merge `"ab"`). -/
theorem write_no_coordinator_original_claim_false :
    (noCoordClient.write false (Value.str "b")).err = some PyError.attributeError
    ∧ (noCoordClient.write false (Value.str "b")).state._data = Value.str "a"
    ∧ (noCoordClient.write false (Value.str "b")).sent = [] := by
  decide

/-- C10: if `finalize()` fails with a construction error while building the
target shape, the client state — in particular the accumulator — is left
entirely unchanged, so `get_data()` afterward still returns the merged value
accumulated so far: `finalize` is atomic on error. -/
theorem finalize_construction_error_atomic (s : OutputStream) (reg : Bool)
    (cls : TargetShape) (m : VDict) (f : String)
    (hcls : s._output_cls = some cls) (hd : s._data = Value.dict m)
    (hf : f ∈ cls.required) (hmiss : m.memKey f = false) :
    (s.finalize reg).err = some PyError.validationError
    ∧ (s.finalize reg).state = s
    ∧ (s.finalize reg).state.get_data = s.get_data := by
  have hall : cls.required.all (fun x => m.memKey x) = false := by
    by_contra hc
    rw [Bool.not_eq_false] at hc
    have := List.all_eq_true.mp hc f hf
    rw [hmiss] at this
    exact Bool.false_ne_true this
  simp [OutputStream.finalize, OutputStream.constructOutput, buildShape,
    hcls, hd, hall]

/-- Witness for C10's theorem at a concrete input. -/
theorem finalize_construction_error_atomic_witness :
    (missingFieldClient._output_cls = some shapeNeedsX
      ∧ missingFieldClient._data = Value.dict (.cons "y" (.int 1) .nil)
      ∧ "x" ∈ shapeNeedsX.required
      ∧ (VDict.cons "y" (.int 1) .nil).memKey "x" = false)
    ∧ ((missingFieldClient.finalize true).err = some PyError.validationError
      ∧ (missingFieldClient.finalize true).state = missingFieldClient
      ∧ (missingFieldClient.finalize true).state.get_data
        = missingFieldClient.get_data) :=
  ⟨⟨rfl, rfl, by decide, by decide⟩,
    finalize_construction_error_atomic missingFieldClient true shapeNeedsX
      (.cons "y" (.int 1) .nil) "x" rfl rfl (by decide) (by decide)⟩

end OutputStreamModel
